import Mathlib

/-!
Verification of the fake-news detection app (`src/app.py`).

The app has three parts:
* `load_models` (app.py 58-66): loads two serialized artifacts, returning
  `(None, None)` on any exception;
* `predict_news` (app.py 69-88): transforms the text, runs the classifier,
  derives label/confidence/probabilities, returning `None` (after showing an
  error) if any step raises;
* the page body (app.py 104-200): gates on the loaded artifacts, on a blank
  submission shows a warning, otherwise runs inference and appends to the
  session history; the sidebar shows `reversed(history[-5:])`.

Embedding conventions: an operation on an opaque artifact that may raise a
Python exception is modelled as `Except String α`, the string standing for
the exception text; floats are modelled as rationals; list indexing `xs[i]`
is modelled by `pyIndex`, which raises (returns `.error`) out of bounds, as
Python does; `st.warning` / `st.error` calls are recorded as observable
fields of the step's output.
-/

namespace FakeNews

/-- Feature vectors produced by the vectorizer; their content is opaque to
the app (it only passes them to the classifier), a list of rationals
suffices. -/
abbrev Vec := List ℚ

/-- The classifier artifact (`model` in app.py): `predict` returns an array
of class indices, `predict_proba` an array of per-row probability lists.
Either call may raise. -/
structure Model where
  predict : Vec → Except String (List Int)
  predict_proba : Vec → Except String (List (List ℚ))

/-- The vectorizer artifact: `transform` takes a list of documents and
returns a feature vector (app.py passes the singleton `[news_text]`). -/
structure Vectorizer where
  transform : List String → Except String Vec

/-- The dictionary built at app.py 81-85. -/
structure PredictionResult where
  prediction : String
  confidence : ℚ
  probabilities : List ℚ
deriving DecidableEq, Repr

/-- Python list indexing `xs[i]`: raises `IndexError` when out of bounds. -/
def pyIndex (xs : List α) (i : Nat) : Except String α :=
  match xs[i]? with
  | some x => Except.ok x
  | none => Except.error "IndexError"

/-- The body of the `try` block of `predict_news` (app.py 70-85), step by
step: transform, `predict(...)[0]`, `predict_proba(...)[0]`, the conditional
confidence, then the result dictionary. -/
def predict_body (news_text : String) (model : Model) (vectorizer : Vectorizer) :
    Except String PredictionResult :=
  Except.bind (vectorizer.transform [news_text]) fun news_vector =>
  Except.bind (model.predict news_vector) fun preds =>
  Except.bind (pyIndex preds 0) fun prediction =>
  Except.bind (model.predict_proba news_vector) fun probs2 =>
  Except.bind (pyIndex probs2 0) fun probabilities =>
  Except.bind (if prediction == 1 then pyIndex probabilities 1
               else pyIndex probabilities 0) fun confidence =>
  Except.ok
    { prediction := if prediction == 1 then "REAL" else "FAKE"
      confidence := confidence
      probabilities := probabilities }

/-- Output of one `predict_news` call: the returned value (`none` models the
`return None` of the except branch) together with the `st.error` messages
emitted. -/
structure PredictOutput where
  result : Option PredictionResult
  errors : List String
deriving DecidableEq, Repr

/-- `predict_news` (app.py 69-88): on any exception in the body, shows
`Prediction error: {e}` and returns `None`. -/
def predict_news (news_text : String) (model : Model) (vectorizer : Vectorizer) :
    PredictOutput :=
  match predict_body news_text model vectorizer with
  | Except.ok r => { result := some r, errors := [] }
  | Except.error e => { result := none, errors := ["Prediction error: " ++ e] }

/-- Output of `load_models` (app.py 58-66): the returned pair plus the
`st.error` messages emitted. -/
structure LoadOutput where
  model : Option Model
  vectorizer : Option Vectorizer
  errors : List String

/-- `load_models` (app.py 58-66): the two `joblib.load` calls are the
parameters (each `Except String _`, `.error` modelling a raise); the first
raise aborts the `try` block, and the handler shows an error and returns
`(None, None)`. -/
def load_models (loadModel : Except String Model)
    (loadVectorizer : Except String Vectorizer) : LoadOutput :=
  match loadModel with
  | Except.error e =>
    { model := none, vectorizer := none
      errors := ["Error loading model files: " ++ e] }
  | Except.ok model =>
    match loadVectorizer with
    | Except.error e =>
      { model := none, vectorizer := none
        errors := ["Error loading model files: " ++ e] }
    | Except.ok vectorizer =>
      { model := some model, vectorizer := some vectorizer, errors := [] }

/-- A history entry (app.py 133-136): the submitted text, exactly as
entered, paired with the result dictionary. -/
structure HistoryEntry where
  text : String
  result : PredictionResult
deriving DecidableEq, Repr

/-- The whitespace characters stripped by Python's `str.strip()` (restricted
to the ASCII ones; the app only relies on blank-vs-nonblank). -/
def isSpaceChar (c : Char) : Bool :=
  c == ' ' || c == '\t' || c == '\n' || c == '\r' || c == '\x0b' || c == '\x0c'

/-- Python's `news_text.strip()` (app.py 125). -/
def py_strip (s : String) : String :=
  String.mk (((s.toList.dropWhile isSpaceChar).reverse.dropWhile isSpaceChar).reverse)

/-- The history slice rendered at app.py 186: `reversed(history[-5:])`.
Python's `xs[-5:]` is the last `min(len, 5)` elements, which with natural
subtraction is `drop (length - 5)`. -/
def recent_history (history : List HistoryEntry) : List HistoryEntry :=
  (history.drop (history.length - 5)).reverse

/-- Observable outcome of one script run (one submission cycle) of the page
body (app.py 102-200). -/
structure AppState where
  history : List HistoryEntry
  inference_called : Bool
  warning_shown : Bool
  error_messages : List String
  load_error_shown : Bool
  result_shown : Option PredictionResult
deriving Repr

/-- One run of the page body (app.py 102-200): load the artifacts; if both
are non-`None` and the button was clicked, either warn on blank input
(app.py 125-126) or call `predict_news` and, on a truthy result, append to
the session history and display it (app.py 129-163); otherwise show the
load-error block (app.py 190-200). `history0` is the session history at the
start of the run (`[]` for a fresh session, app.py 120-121);
`inference_called` records whether `predict_news` was invoked. -/
def run_app (loadModel : Except String Model)
    (loadVectorizer : Except String Vectorizer)
    (news_text : String) (analyze_button : Bool)
    (history0 : List HistoryEntry) : AppState :=
  let load := load_models loadModel loadVectorizer
  match load.model, load.vectorizer with
  | some model, some vectorizer =>
    if analyze_button then
      if py_strip news_text == "" then
        { history := history0, inference_called := false, warning_shown := true
          error_messages := load.errors, load_error_shown := false
          result_shown := none }
      else
        let out := predict_news news_text model vectorizer
        match out.result with
        | some result =>
          { history := history0 ++ [{ text := news_text, result := result }]
            inference_called := true, warning_shown := false
            error_messages := load.errors ++ out.errors
            load_error_shown := false, result_shown := some result }
        | none =>
          { history := history0, inference_called := true, warning_shown := false
            error_messages := load.errors ++ out.errors
            load_error_shown := false, result_shown := none }
    else
      { history := history0, inference_called := false, warning_shown := false
        error_messages := load.errors, load_error_shown := false
        result_shown := none }
  | _, _ =>
    { history := history0, inference_called := false, warning_shown := false
      error_messages := load.errors, load_error_shown := true
      result_shown := none }

/-! ### Concrete artifacts used in scenarios and witnesses -/

/-- A classifier that always answers index 1 with probabilities `[0.08, 0.92]`. -/
def modelReal : Model :=
  { predict := fun _ => Except.ok [1]
    predict_proba := fun _ => Except.ok [[8/100, 92/100]] }

/-- A classifier that always answers index 0 with probabilities `[0.77, 0.23]`. -/
def modelFake : Model :=
  { predict := fun _ => Except.ok [0]
    predict_proba := fun _ => Except.ok [[77/100, 23/100]] }

/-- A classifier that always answers the out-of-domain index 2. -/
def modelMulti : Model :=
  { predict := fun _ => Except.ok [2]
    predict_proba := fun _ => Except.ok [[6/10, 3/10]] }

/-- A classifier with an even two-class distribution. -/
def modelEven : Model :=
  { predict := fun _ => Except.ok [1]
    predict_proba := fun _ => Except.ok [[1/2, 1/2]] }

/-- A classifier whose `predict` raises. -/
def modelRaises : Model :=
  { predict := fun _ => Except.error "shape mismatch"
    predict_proba := fun _ => Except.ok [[1/2, 1/2]] }

/-- A vectorizer that succeeds on every input. -/
def vecOk : Vectorizer := { transform := fun _ => Except.ok [1] }

/-! ### Helper lemmas -/

theorem pyIndex_eq_ok {α : Type} (xs : List α) (i : Nat) (x : α) :
    pyIndex xs i = Except.ok x ↔ xs[i]? = some x := by
  unfold pyIndex
  cases h : xs[i]? <;> simp

theorem except_bind_ok {ε α β : Type} (a : α) (f : α → Except ε β) :
    Except.bind (Except.ok a) f = f a := rfl

theorem except_bind_error {ε α β : Type} (e : ε) (f : α → Except ε β) :
    Except.bind (Except.error e : Except ε α) f = Except.error e := rfl

/-- Full inversion of the `try`-body of `predict_news`: it returns a result
exactly when every pipeline step succeeds, and the result's fields are
determined by the predicted index and the first probability row. -/
theorem predict_body_ok_iff (t : String) (model : Model) (vectorizer : Vectorizer)
    (r : PredictionResult) :
    predict_body t model vectorizer = Except.ok r ↔
    ∃ (v : Vec) (preds : List Int) (p : Int) (probs2 : List (List ℚ))
      (probs : List ℚ) (c : ℚ),
      vectorizer.transform [t] = Except.ok v ∧
      model.predict v = Except.ok preds ∧
      preds[0]? = some p ∧
      model.predict_proba v = Except.ok probs2 ∧
      probs2[0]? = some probs ∧
      (if p = 1 then probs[1]? else probs[0]?) = some c ∧
      r = { prediction := if p = 1 then "REAL" else "FAKE"
            confidence := c
            probabilities := probs } := by
  constructor
  · intro hb
    unfold predict_body at hb
    rcases ht : vectorizer.transform [t] with e | v <;>
      simp only [ht, except_bind_error, except_bind_ok] at hb
    · exact absurd hb (by simp)
    rcases hp : model.predict v with e | preds <;>
      simp only [hp, except_bind_error, except_bind_ok] at hb
    · exact absurd hb (by simp)
    rcases hi : pyIndex preds 0 with e | p <;>
      simp only [hi, except_bind_error, except_bind_ok] at hb
    · exact absurd hb (by simp)
    rcases hq : model.predict_proba v with e | probs2 <;>
      simp only [hq, except_bind_error, except_bind_ok] at hb
    · exact absurd hb (by simp)
    rcases hrow : pyIndex probs2 0 with e | probs <;>
      simp only [hrow, except_bind_error, except_bind_ok] at hb
    · exact absurd hb (by simp)
    by_cases h1 : p = 1
    · rcases hc : pyIndex probs 1 with e | c <;>
        simp only [h1, beq_self_eq_true, if_true, hc,
          except_bind_error, except_bind_ok] at hb
      · exact absurd hb (by simp)
      refine ⟨v, preds, p, probs2, probs, c, rfl, hp,
        (pyIndex_eq_ok preds 0 p).mp hi, hq,
        (pyIndex_eq_ok probs2 0 probs).mp hrow, ?_, ?_⟩
      · simp only [h1, if_true]
        exact (pyIndex_eq_ok probs 1 c).mp hc
      · simp only [Except.ok.injEq] at hb
        subst hb
        simp [h1]
    · have hb1 : (p == 1) = false := by simp [h1]
      rcases hc : pyIndex probs 0 with e | c <;>
        simp only [hb1, Bool.false_eq_true, if_false, hc,
          except_bind_error, except_bind_ok] at hb
      · exact absurd hb (by simp)
      refine ⟨v, preds, p, probs2, probs, c, rfl, hp,
        (pyIndex_eq_ok preds 0 p).mp hi, hq,
        (pyIndex_eq_ok probs2 0 probs).mp hrow, ?_, ?_⟩
      · simp only [h1, if_false]
        exact (pyIndex_eq_ok probs 0 c).mp hc
      · simp only [Except.ok.injEq] at hb
        subst hb
        simp [h1, hb1]
  · rintro ⟨v, preds, p, probs2, probs, c, ht, hp, hi, hq, hrow, hc, hr⟩
    subst hr
    unfold predict_body
    simp only [ht, except_bind_ok, hp,
      (pyIndex_eq_ok preds 0 p).mpr hi, hq,
      (pyIndex_eq_ok probs2 0 probs).mpr hrow]
    by_cases h1 : p = 1
    · have hcc : probs[1]? = some c := by simpa [h1] using hc
      simp [h1, (pyIndex_eq_ok probs 1 c).mpr hcc, except_bind_ok]
    · have hb1 : (p == 1) = false := by simp [h1]
      have hcc : probs[0]? = some c := by simpa [h1] using hc
      simp [h1, hb1, (pyIndex_eq_ok probs 0 c).mpr hcc, except_bind_ok]

theorem predict_news_result_some (t : String) (model : Model)
    (vectorizer : Vectorizer) (r : PredictionResult) :
    (predict_news t model vectorizer).result = some r ↔
    predict_body t model vectorizer = Except.ok r := by
  unfold predict_news
  cases h : predict_body t model vectorizer <;> simp

/-! ### Claim theorems -/

/-- C1: whenever `predict_news` returns a result, the label is "REAL"
exactly when the classifier's predicted index (the first entry of the
`predict` output) equals 1, and "FAKE" exactly when it does not. -/
theorem label_real_iff_index_one
    (t : String) (model : Model) (vectorizer : Vectorizer) (r : PredictionResult)
    (h : (predict_news t model vectorizer).result = some r) :
    ∃ (v : Vec) (preds : List Int) (p : Int),
      vectorizer.transform [t] = Except.ok v ∧
      model.predict v = Except.ok preds ∧ preds[0]? = some p ∧
      (r.prediction = "REAL" ↔ p = 1) ∧ (r.prediction = "FAKE" ↔ p ≠ 1) := by
  rcases (predict_body_ok_iff t model vectorizer r).mp
      ((predict_news_result_some t model vectorizer r).mp h) with
    ⟨v, preds, p, probs2, probs, c, ht, hp, hi, hq, hrow, hc, hr⟩
  subst hr
  by_cases h1 : p = 1
  · exact ⟨v, preds, p, ht, hp, hi, by simp [h1], by simp [h1]⟩
  · exact ⟨v, preds, p, ht, hp, hi, by simp [h1], by simp [h1]⟩

/-- Witness for C1: a concrete classifier predicting index 1 yields "REAL". -/
theorem label_real_iff_index_one_witness :
    ∃ (v : Vec) (preds : List Int) (p : Int),
      vecOk.transform ["news"] = Except.ok v ∧
      modelReal.predict v = Except.ok preds ∧ preds[0]? = some p ∧
      (({ prediction := "REAL", confidence := 92/100
          probabilities := [8/100, 92/100] } : PredictionResult).prediction = "REAL" ↔
        p = 1) ∧
      (({ prediction := "REAL", confidence := 92/100
          probabilities := [8/100, 92/100] } : PredictionResult).prediction = "FAKE" ↔
        p ≠ 1) :=
  label_real_iff_index_one "news" modelReal vecOk
    { prediction := "REAL", confidence := 92/100, probabilities := [8/100, 92/100] }
    rfl

/-- C2: whenever `predict_news` returns a result, the confidence is the
probability at index 1 when the label is "REAL" and the probability at
index 0 when the label is "FAKE" — always the predicted class's mass. -/
theorem confidence_is_predicted_class_mass
    (t : String) (model : Model) (vectorizer : Vectorizer) (r : PredictionResult)
    (h : (predict_news t model vectorizer).result = some r) :
    (r.prediction = "REAL" → r.probabilities[1]? = some r.confidence) ∧
    (r.prediction = "FAKE" → r.probabilities[0]? = some r.confidence) := by
  rcases (predict_body_ok_iff t model vectorizer r).mp
      ((predict_news_result_some t model vectorizer r).mp h) with
    ⟨v, preds, p, probs2, probs, c, ht, hp, hi, hq, hrow, hc, hr⟩
  subst hr
  by_cases h1 : p = 1
  · simp only [h1, if_true] at hc ⊢
    exact ⟨fun _ => hc, fun hf => absurd hf (by simp)⟩
  · simp only [h1, if_false] at hc ⊢
    exact ⟨fun hf => absurd hf (by simp), fun _ => hc⟩

/-- Witness for C2 at a concrete classifier predicting index 0. -/
theorem confidence_is_predicted_class_mass_witness :
    (({ prediction := "FAKE", confidence := 77/100
        probabilities := [77/100, 23/100] } : PredictionResult).prediction = "REAL" →
      ([77/100, 23/100] : List ℚ)[1]? = some (77/100)) ∧
    (({ prediction := "FAKE", confidence := 77/100
        probabilities := [77/100, 23/100] } : PredictionResult).prediction = "FAKE" →
      ([77/100, 23/100] : List ℚ)[0]? = some (77/100)) :=
  confidence_is_predicted_class_mass "news" modelFake vecOk
    { prediction := "FAKE", confidence := 77/100, probabilities := [77/100, 23/100] }
    rfl

/-- C7: the two concrete scenarios: a classifier predicting index 1 with
probabilities `[0.08, 0.92]` yields `REAL` with confidence `0.92`, and one
predicting index 0 with probabilities `[0.77, 0.23]` yields `FAKE` with
confidence `0.77`. -/
theorem concrete_real_and_fake_results :
    (predict_news "Scientists confirm vaccine safety" modelReal vecOk).result =
      some { prediction := "REAL", confidence := 92/100
             probabilities := [8/100, 92/100] } ∧
    (predict_news "Aliens built the pyramids" modelFake vecOk).result =
      some { prediction := "FAKE", confidence := 77/100
             probabilities := [77/100, 23/100] } :=
  ⟨rfl, rfl⟩

/-- C9: for any predicted index other than 1 — including an out-of-domain
index such as 2 — the operation succeeds (no error message) with label
"FAKE" and confidence `probabilities[0]`, provided the pipeline steps
themselves succeed. -/
theorem non_one_index_labels_fake
    (t : String) (model : Model) (vectorizer : Vectorizer)
    (v : Vec) (preds : List Int) (p : Int) (probs2 : List (List ℚ))
    (probs : List ℚ) (p0 : ℚ)
    (ht : vectorizer.transform [t] = Except.ok v)
    (hp : model.predict v = Except.ok preds)
    (hi : preds[0]? = some p)
    (hne : p ≠ 1)
    (hq : model.predict_proba v = Except.ok probs2)
    (hrow : probs2[0]? = some probs)
    (h0 : probs[0]? = some p0) :
    predict_news t model vectorizer =
      { result := some { prediction := "FAKE", confidence := p0
                         probabilities := probs }
        errors := [] } := by
  have hb : predict_body t model vectorizer =
      Except.ok { prediction := "FAKE", confidence := p0, probabilities := probs } := by
    refine (predict_body_ok_iff t model vectorizer _).mpr
      ⟨v, preds, p, probs2, probs, p0, ht, hp, hi, hq, hrow, ?_, ?_⟩
    · simpa [hne] using h0
    · simp [hne]
  unfold predict_news
  rw [hb]

/-- Witness for C9: a classifier answering the out-of-domain index 2. -/
theorem non_one_index_labels_fake_witness :
    predict_news "news" modelMulti vecOk =
      { result := some { prediction := "FAKE", confidence := 6/10
                         probabilities := [6/10, 3/10] }
        errors := [] } :=
  non_one_index_labels_fake "news" modelMulti vecOk [1] [2] 2
    [[6/10, 3/10]] [6/10, 3/10] (6/10) rfl rfl rfl (by decide) rfl rfl rfl

/-- C8: if every probability row the classifier can return is a two-class
distribution summing to 1 within 1e-6, then the probabilities of any
returned result for a non-blank input sum to 1 within 1e-6 — they are
passed through unmodified. -/
theorem probabilities_sum_near_one
    (t : String) (model : Model) (vectorizer : Vectorizer) (r : PredictionResult)
    (hne : py_strip t ≠ "")
    (hdist : ∀ (v : Vec) (rows : List (List ℚ)),
      model.predict_proba v = Except.ok rows →
      ∀ row ∈ rows, ∃ p0 p1, row = [p0, p1] ∧ |p0 + p1 - 1| ≤ 1 / 1000000)
    (h : (predict_news t model vectorizer).result = some r) :
    ∃ p0 p1, r.probabilities = [p0, p1] ∧ |p0 + p1 - 1| ≤ 1 / 1000000 := by
  rcases (predict_body_ok_iff t model vectorizer r).mp
      ((predict_news_result_some t model vectorizer r).mp h) with
    ⟨v, preds, p, probs2, probs, c, ht, hp, hi, hq, hrow, hc, hr⟩
  subst hr
  exact hdist v probs2 hq probs (List.getElem?_mem hrow)

/-- Witness for C8: an even two-class classifier. -/
theorem probabilities_sum_near_one_witness :
    ∃ p0 p1,
      ({ prediction := "REAL", confidence := 1/2
         probabilities := [1/2, 1/2] } : PredictionResult).probabilities = [p0, p1] ∧
      |p0 + p1 - 1| ≤ 1 / 1000000 :=
  probabilities_sum_near_one "news" modelEven vecOk
    { prediction := "REAL", confidence := 1/2, probabilities := [1/2, 1/2] }
    (by decide)
    (fun v rows hrows row hmem => by
      have hr : rows = [[1/2, 1/2]] := by
        simpa [modelEven] using hrows.symm
      subst hr
      have : row = [(1:ℚ)/2, 1/2] := List.mem_singleton.mp hmem
      exact ⟨1/2, 1/2, this, by norm_num⟩)
    rfl

/-- C4: for text that is blank after stripping, a click never calls the
inference operation and never changes the history; when the artifacts are
loaded, a warning (and no error message) is shown. -/
theorem blank_input_warns_without_inference
    (lm : Except String Model) (lv : Except String Vectorizer)
    (text : String) (hist : List HistoryEntry)
    (h : py_strip text = "") :
    (run_app lm lv text true hist).inference_called = false ∧
    (run_app lm lv text true hist).history = hist ∧
    ((run_app lm lv text true hist).load_error_shown = false →
      (run_app lm lv text true hist).warning_shown = true ∧
      (run_app lm lv text true hist).error_messages = []) := by
  rcases lm with e | m
  · simp [run_app, load_models]
  rcases lv with e | vv
  · simp [run_app, load_models]
  simp [run_app, load_models, h]

/-- Witness for C4 at whitespace-only input. -/
theorem blank_input_warns_without_inference_witness :
    (run_app (Except.ok modelReal) (Except.ok vecOk) "   " true []).inference_called
        = false ∧
    (run_app (Except.ok modelReal) (Except.ok vecOk) "   " true []).history = [] ∧
    ((run_app (Except.ok modelReal) (Except.ok vecOk) "   " true []).load_error_shown
        = false →
      (run_app (Except.ok modelReal) (Except.ok vecOk) "   " true []).warning_shown
          = true ∧
      (run_app (Except.ok modelReal) (Except.ok vecOk) "   " true []).error_messages
          = []) :=
  blank_input_warns_without_inference (Except.ok modelReal) (Except.ok vecOk)
    "   " [] (by decide)

/-- C5: if either artifact load raises, `load_models` returns the
`(None, None)` pair (it does not propagate the exception), and on that run
no inference is attempted, the history is untouched, and the load-error
block is shown. -/
theorem load_failure_degrades_without_inference
    (lm : Except String Model) (lv : Except String Vectorizer)
    (text : String) (button : Bool) (hist : List HistoryEntry)
    (h : (∃ e, lm = Except.error e) ∨ (∃ e, lv = Except.error e)) :
    (load_models lm lv).model = none ∧ (load_models lm lv).vectorizer = none ∧
    (run_app lm lv text button hist).inference_called = false ∧
    (run_app lm lv text button hist).load_error_shown = true ∧
    (run_app lm lv text button hist).history = hist := by
  rcases h with ⟨e, he⟩ | ⟨e, he⟩
  · subst he; simp [run_app, load_models]
  · subst he
    rcases lm with e2 | m <;> simp [run_app, load_models]

/-- Witness for C5: the classifier artifact fails to load. -/
theorem load_failure_degrades_without_inference_witness :
    (load_models (Except.error "file not found") (Except.ok vecOk)).model = none ∧
    (load_models (Except.error "file not found") (Except.ok vecOk)).vectorizer
        = none ∧
    (run_app (Except.error "file not found") (Except.ok vecOk) "news" true
        []).inference_called = false ∧
    (run_app (Except.error "file not found") (Except.ok vecOk) "news" true
        []).load_error_shown = true ∧
    (run_app (Except.error "file not found") (Except.ok vecOk) "news" true
        []).history = [] :=
  load_failure_degrades_without_inference (Except.error "file not found")
    (Except.ok vecOk) "news" true [] (Or.inl ⟨"file not found", rfl⟩)

/-- C6: if the transform/predict pipeline raises, the run completes (no
uncaught exception in the model), the history is unchanged, no result is
shown, and exactly the prediction error message is surfaced. -/
theorem inference_failure_keeps_history
    (lm : Except String Model) (lv : Except String Vectorizer)
    (text : String) (hist : List HistoryEntry)
    (model : Model) (vectorizer : Vectorizer) (e : String)
    (hm : (load_models lm lv).model = some model)
    (hv : (load_models lm lv).vectorizer = some vectorizer)
    (hne : py_strip text ≠ "")
    (hfail : predict_body text model vectorizer = Except.error e) :
    (run_app lm lv text true hist).history = hist ∧
    (run_app lm lv text true hist).result_shown = none ∧
    (run_app lm lv text true hist).error_messages = ["Prediction error: " ++ e] ∧
    (run_app lm lv text true hist).load_error_shown = false := by
  rcases lm with e1 | m
  · simp [load_models] at hm
  rcases lv with e2 | vv
  · simp [load_models] at hm
  simp only [load_models, Option.some.injEq] at hm hv
  subst hm; subst hv
  simp [run_app, load_models, hne, predict_news, hfail]

/-- Witness for C6: a classifier whose `predict` raises. -/
theorem inference_failure_keeps_history_witness :
    (run_app (Except.ok modelRaises) (Except.ok vecOk) "news" true []).history
        = [] ∧
    (run_app (Except.ok modelRaises) (Except.ok vecOk) "news" true []).result_shown
        = none ∧
    (run_app (Except.ok modelRaises) (Except.ok vecOk) "news" true
        []).error_messages = ["Prediction error: " ++ "shape mismatch"] ∧
    (run_app (Except.ok modelRaises) (Except.ok vecOk) "news" true
        []).load_error_shown = false :=
  inference_failure_keeps_history (Except.ok modelRaises) (Except.ok vecOk)
    "news" [] modelRaises vecOk "shape mismatch" rfl rfl (by decide) rfl

/-- C10: a successful submission appends exactly one entry holding the
input text exactly as entered (untrimmed) together with the unmodified
result. -/
theorem history_records_exact_text
    (lm : Except String Model) (lv : Except String Vectorizer)
    (text : String) (hist : List HistoryEntry)
    (model : Model) (vectorizer : Vectorizer) (r : PredictionResult)
    (hm : (load_models lm lv).model = some model)
    (hv : (load_models lm lv).vectorizer = some vectorizer)
    (hne : py_strip text ≠ "")
    (hr : (predict_news text model vectorizer).result = some r) :
    (run_app lm lv text true hist).history =
      hist ++ [{ text := text, result := r }] := by
  rcases lm with e1 | m
  · simp [load_models] at hm
  rcases lv with e2 | vv
  · simp [load_models] at hm
  simp only [load_models, Option.some.injEq] at hm hv
  subst hm; subst hv
  simp [run_app, load_models, hne, hr]

/-- Witness for C10: input with leading and trailing whitespace is stored
with that whitespace preserved. -/
theorem history_records_exact_text_witness :
    (run_app (Except.ok modelReal) (Except.ok vecOk) " hello " true []).history =
      [] ++ [{ text := " hello "
               result := { prediction := "REAL", confidence := 92/100
                           probabilities := [8/100, 92/100] } }] :=
  history_records_exact_text (Except.ok modelReal) (Except.ok vecOk) " hello " []
    modelReal vecOk
    { prediction := "REAL", confidence := 92/100, probabilities := [8/100, 92/100] }
    rfl rfl (by decide) rfl

/-- Auxiliary: appending elements one at a time builds exactly the list of
appended elements after the accumulator. -/
theorem foldl_append_eq (entries acc : List HistoryEntry) :
    List.foldl (fun h e => h ++ [e]) acc entries = acc ++ entries := by
  induction entries generalizing acc with
  | nil => simp
  | cons x xs ih => simp [ih]

/-- C3: appending `k` entries to an empty buffer stores exactly those `k`
entries in insertion order (none is ever removed), while the displayed
slice is the most recent `min(k,5)` of them, most recent first. -/
theorem recent_history_displays_reverse_take (entries : List HistoryEntry) :
    List.foldl (fun h e => h ++ [e]) [] entries = entries ∧
    recent_history entries = entries.reverse.take 5 ∧
    (recent_history entries).length = min entries.length 5 := by
  have hkey : recent_history entries = entries.reverse.take 5 := by
    have h := List.rtake_eq_reverse_take_reverse entries 5
    unfold recent_history
    unfold List.rtake at h
    rw [h, List.reverse_reverse]
  refine ⟨by simpa using foldl_append_eq entries [], hkey, ?_⟩
  rw [hkey]
  simp [Nat.min_comm]

end FakeNews
